import Mathlib

/-!
Verification development for the Design-Transfer plugin (`src/code.ts`,
`src/unnamed/part_000`).  The cross-file pipeline of `part_000` is embedded
shallowly: JS objects become Lean structures, the optional attribute slots
(`"x" in node` probes) become `Option` fields, JS numbers become `Int`
(only copying and zero-truthiness matter to the claims), and the host /
network effects (element creation throwing, fetches failing) are abstracted
into explicit environment records that each function consumes.
-/

namespace DesignTransfer

/-- Geometry attribute slots: present on a node exactly when the host element
exposes the corresponding property (`"x" in node` etc.). -/
structure GeomAttrs where
  x : Option Int
  y : Option Int
  width : Option Int
  height : Option Int
  rotation : Option Int
deriving DecidableEq, Repr

/-- Paint / visual attribute slots (opacity, blendMode, fills, strokes,
strokeWeight, strokeAlign, effects, cornerRadius of the source). -/
structure PaintAttrs where
  opacity : Option Int
  blendMode : Option String
  fills : Option (List Int)
  strokes : Option (List Int)
  strokeWeight : Option Int
  strokeAlign : Option String
  effects : Option (List Int)
  cornerRadius : Option Int
deriving DecidableEq, Repr

/-- Text attribute slots (characters, fontSize, fontName of the source). -/
structure TextAttrs where
  characters : Option String
  fontSize : Option Int
  fontName : Option String
deriving DecidableEq, Repr

/-- Auto-layout attribute slots (layoutMode, the two sizing modes, the four
paddings and itemSpacing of the source). -/
structure LayoutAttrs where
  layoutMode : Option String
  primaryAxisSizingMode : Option String
  counterAxisSizingMode : Option String
  paddingLeft : Option Int
  paddingRight : Option Int
  paddingTop : Option Int
  paddingBottom : Option Int
  itemSpacing : Option Int
deriving DecidableEq, Repr

/-- Scalar part of a live host element (a `SceneNode`).  `visible` and
`locked` are plain Booleans because every scene node exposes them. -/
structure FAttrs where
  type : String
  name : String
  id : String
  visible : Bool
  locked : Bool
  geom : GeomAttrs
  paint : PaintAttrs
  text : TextAttrs
  layout : LayoutAttrs
deriving DecidableEq, Repr

/-- A live host element tree.  `children = none` models an element without a
`children` property (leaf kinds); `some cs` models a container. -/
inductive FNode where
  | node (attrs : FAttrs) (children : Option (List FNode))

/-- Scalar part of a serialized node (the JSON object `deepSerializeNode`
builds).  Every field is optional because the serializer emits a key only
when the probe succeeded; `id` is emitted unconditionally (line 634). -/
structure SAttrs where
  type : String
  name : String
  id : String
  visible : Option Bool
  locked : Option Bool
  geom : GeomAttrs
  paint : PaintAttrs
  text : TextAttrs
  layout : LayoutAttrs
deriving DecidableEq, Repr

/-- A serialized (wire) node tree, the `nodeData` payload. -/
inductive SNode where
  | node (attrs : SAttrs) (children : Option (List SNode))

def FNode.attrs : FNode → FAttrs
  | .node a _ => a

def FNode.childrenOf : FNode → Option (List FNode)
  | .node _ ch => ch

def SNode.attrs : SNode → SAttrs
  | .node a _ => a

def SNode.childrenOf : SNode → Option (List SNode)
  | .node _ ch => ch

/-- JS truthiness of an optional string (`undefined` and `""` are falsy). -/
def jsTruthyStr (o : Option String) : Bool :=
  match o with
  | some s => s ≠ ""
  | none => false

/-- JS truthiness of an optional number (`undefined` and `0` are falsy). -/
def jsTruthyInt (o : Option Int) : Bool :=
  match o with
  | some v => v ≠ 0
  | none => false

/-- `v || d` on an optional JS number (used for `nodeData.height || 100`). -/
def jsOrInt (o : Option Int) (d : Int) : Int :=
  match o with
  | some v => if v = 0 then d else v
  | none => d

/-- The element kinds `createNodeFromSerialized` has explicit cases for
(lines 754-783); every other kind hits the default branch. -/
def supportedKind (t : String) : Bool :=
  t == "FRAME" || t == "RECTANGLE" || t == "ELLIPSE" || t == "TEXT" ||
  t == "GROUP" || t == "COMPONENT"

/-- Kind of the element the deserializer actually creates: the requested one
for a supported kind, a FRAME for everything else (default branch). -/
def createdType (t : String) : String :=
  if supportedKind t then t else "FRAME"

/-- Host capability table: which of the six creatable kinds expose fills /
strokes / strokeWeight / strokeAlign (groups do not). -/
def capFills (t : String) : Bool :=
  t == "FRAME" || t == "RECTANGLE" || t == "ELLIPSE" || t == "TEXT" || t == "COMPONENT"

/-- Host capability table: kinds exposing `cornerRadius`. -/
def capCorner (t : String) : Bool :=
  t == "FRAME" || t == "RECTANGLE" || t == "COMPONENT"

/-- Host capability table: kinds exposing the text properties. -/
def capText (t : String) : Bool :=
  t == "TEXT"

/-- Host capability table: kinds exposing the auto-layout properties. -/
def capLayout (t : String) : Bool :=
  t == "FRAME" || t == "COMPONENT"

/-- Host capability table: kinds exposing `children` / `appendChild`. -/
def capChildren (t : String) : Bool :=
  t == "FRAME" || t == "GROUP" || t == "COMPONENT"

/-- Scalar copy step of `deepSerializeNode` (lines 632-678): a key is
emitted exactly when the property probe succeeds, so every present slot of
the live element, including `id`, `visible` and `locked`, is copied
verbatim into the wire object. -/
def serAttrs (a : FAttrs) : SAttrs :=
  { type := a.type
    name := a.name
    id := a.id
    visible := some a.visible
    locked := some a.locked
    geom := a.geom
    paint := a.paint
    text := a.text
    layout := a.layout }

mutual

/-- `deepSerializeNode` (lines 631-689): copies every exposed property and
recurses over `children` in order when the element has them. -/
def deepSerializeNode : FNode → SNode
  | .node a none => .node (serAttrs a) none
  | .node a (some cs) => .node (serAttrs a) (some (serializeChildrenList cs))

/-- The `for (const child of node.children)` loop of `deepSerializeNode`. -/
def serializeChildrenList : List FNode → List SNode
  | [] => []
  | c :: cs => deepSerializeNode c :: serializeChildrenList cs

end

/-- Font every fresh text element carries; `createNodeFromSerialized` never
assigns `fontName`, so created text keeps this host default. -/
def defaultFont : String := "Inter"

/-- Identifier the host assigns to a freshly created element; the model
value records only that it is host-chosen, never taken from the payload. -/
def hostFreshId : String := ""

/-- Default geometry of a freshly created element. -/
def defaultGeom : GeomAttrs :=
  { x := some 0, y := some 0, width := some 100, height := some 100, rotation := some 0 }

/-- Default paint slots of a freshly created element of kind `t`. -/
def defaultPaint (t : String) : PaintAttrs :=
  { opacity := some 1
    blendMode := some "NORMAL"
    fills := if capFills t then some [] else none
    strokes := if capFills t then some [] else none
    strokeWeight := if capFills t then some 1 else none
    strokeAlign := if capFills t then some "INSIDE" else none
    effects := some []
    cornerRadius := if capCorner t then some 0 else none }

/-- Default text slots of a freshly created element of kind `t`. -/
def defaultText (t : String) : TextAttrs :=
  if capText t then
    { characters := some "", fontSize := some 12, fontName := some defaultFont }
  else
    { characters := none, fontSize := none, fontName := none }

/-- Default layout slots of a freshly created element of kind `t`. -/
def defaultLayout (t : String) : LayoutAttrs :=
  if capLayout t then
    { layoutMode := some "NONE", primaryAxisSizingMode := some "FIXED",
      counterAxisSizingMode := some "FIXED", paddingLeft := some 0,
      paddingRight := some 0, paddingTop := some 0, paddingBottom := some 0,
      itemSpacing := some 0 }
  else
    { layoutMode := none, primaryAxisSizingMode := none,
      counterAxisSizingMode := none, paddingLeft := none, paddingRight := none,
      paddingTop := none, paddingBottom := none, itemSpacing := none }

/-- The element `figma.createFrame/...` returns before any property is
applied, including its children slot (`[]` for containers, absent for
leaves). -/
def createEmptyAttrs (t : String) : FAttrs :=
  { type := t, name := "", id := hostFreshId, visible := true, locked := false,
    geom := defaultGeom, paint := defaultPaint t, text := defaultText t,
    layout := defaultLayout t }

/-- One guarded property write `if ("p" in createdNode && nodeData.p !==
undefined) createdNode.p = nodeData.p`: the created element exposes the
slot (`cur.isSome`) and the payload defines it. -/
def applyProp {α : Type} (cur v : Option α) : Option α :=
  if cur.isSome && v.isSome then v else cur

/-- Geometry application (lines 795-802): `x`, `y`, `rotation` are guarded
writes; `width` triggers `resize(nodeData.width, nodeData.height || 100)`,
so `height` is set through JS-truthiness fallback to 100. -/
def applyGeom (s g : GeomAttrs) : GeomAttrs :=
  { x := applyProp g.x s.x
    y := applyProp g.y s.y
    width := applyProp g.width s.width
    height := if g.width.isSome && s.width.isSome then some (jsOrInt s.height 100) else g.height
    rotation := applyProp g.rotation s.rotation }

/-- Paint application (lines 803-816): every slot is a guarded write except
`strokeAlign`, which the deserializer never reads, so the created element
keeps its default alignment. -/
def applyPaint (s p : PaintAttrs) : PaintAttrs :=
  { opacity := applyProp p.opacity s.opacity
    blendMode := applyProp p.blendMode s.blendMode
    fills := applyProp p.fills s.fills
    strokes := applyProp p.strokes s.strokes
    strokeWeight := applyProp p.strokeWeight s.strokeWeight
    strokeAlign := p.strokeAlign
    effects := applyProp p.effects s.effects
    cornerRadius := applyProp p.cornerRadius s.cornerRadius }

/-- Text application (lines 819-824): only for a created TEXT element, with
JS truthiness on `characters` and `fontSize`; `fontName` is never
assigned (the payload font is only passed to `loadFontAsync`). -/
def applyText (createdT : String) (s tx : TextAttrs) : TextAttrs :=
  if createdT == "TEXT" && tx.characters.isSome then
    { characters := if jsTruthyStr s.characters then s.characters else tx.characters
      fontSize := if jsTruthyInt s.fontSize then s.fontSize else tx.fontSize
      fontName := tx.fontName }
  else tx

/-- Auto-layout application (lines 827-845): entered only when the created
element exposes `layoutMode` and the payload value is truthy; the sizing
modes use truthiness, the paddings and itemSpacing use `!== undefined`. -/
def applyLayout (s ly : LayoutAttrs) : LayoutAttrs :=
  if ly.layoutMode.isSome && jsTruthyStr s.layoutMode then
    { layoutMode := s.layoutMode
      primaryAxisSizingMode :=
        if jsTruthyStr s.primaryAxisSizingMode then s.primaryAxisSizingMode
        else ly.primaryAxisSizingMode
      counterAxisSizingMode :=
        if jsTruthyStr s.counterAxisSizingMode then s.counterAxisSizingMode
        else ly.counterAxisSizingMode
      paddingLeft := if s.paddingLeft.isSome then s.paddingLeft else ly.paddingLeft
      paddingRight := if s.paddingRight.isSome then s.paddingRight else ly.paddingRight
      paddingTop := if s.paddingTop.isSome then s.paddingTop else ly.paddingTop
      paddingBottom := if s.paddingBottom.isSome then s.paddingBottom else ly.paddingBottom
      itemSpacing := if s.itemSpacing.isSome then s.itemSpacing else ly.itemSpacing }
  else ly

/-- Property-application phase of `createNodeFromSerialized` (lines
793-845) on the freshly created element `f`: the name is written
unconditionally, everything else through the guards above.  `id`,
`visible`, `locked` and `strokeAlign` are never written. -/
def applySerialized (s : SAttrs) (f : FAttrs) : FAttrs :=
  { f with
    name := s.name
    geom := applyGeom s.geom f.geom
    paint := applyPaint s.paint f.paint
    text := applyText f.type s.text f.text
    layout := applyLayout s.layout f.layout }

/-- Host-effect environment for deserialization.  `createThrows nd` models
the element-creation call for payload `nd` throwing inside that call's own
try block; `applyThrows nd` models any later host call of the same
invocation (property write, resize, append) throwing; `fontLoadFails`
models `figma.loadFontAsync` rejecting, which the source catches and only
logs (lines 767-772). -/
structure Env where
  createThrows : SNode → Bool
  applyThrows : SNode → Bool
  fontLoadFails : Bool

/-- Environment in which no host call fails. -/
def envOK : Env :=
  { createThrows := fun _ => false, applyThrows := fun _ => false, fontLoadFails := false }

mutual

/-- `createNodeFromSerialized` (lines 742-867).  The whole body sits in a
try/catch that converts any thrown error into `null` (`none`); otherwise a
fresh element of `createdType` is made, the payload attributes are applied
under their guards, and the children are rebuilt in order.  The target
page is only appended to (no effect on the returned handle), so it is not
a parameter of the model. -/
def createNodeFromSerialized (env : Env) : SNode → Option FNode
  | .node a ch =>
    if env.createThrows (.node a ch) || env.applyThrows (.node a ch) then none
    else
      some (.node (applySerialized a (createEmptyAttrs (createdType a.type)))
        (childSlots env (createdType a.type) ch))

/-- The child loop (lines 848-856): each child is rebuilt by a recursive
call with its own catch; a `null` child is skipped, a created child is
appended to the parent, preserving payload order. -/
def createChildrenList (env : Env) : List SNode → List FNode
  | [] => []
  | c :: cs =>
    match createNodeFromSerialized env c with
    | some m => m :: createChildrenList env cs
    | none => createChildrenList env cs

/-- Children slot of the created element: the rebuilt list when the payload
has a children key and the created kind supports children (lines 848-856),
the created element's own default slot otherwise. -/
def childSlots (env : Env) (t : String) : Option (List SNode) → Option (List FNode)
  | some cs => if capChildren t then some (createChildrenList env cs) else none
  | none => if capChildren t then some [] else none

end

/-- One child of `figma.root` (resp. of `fileData.document`): a page-like
node with its host id, display name and node type. -/
structure PageD where
  id : String
  name : String
  type : String
deriving DecidableEq, Repr

/-- `applyPendingTransfer` (lines 697-739): looks the target page up among
the document root's children, throws (`Except.error`) when it is missing or
not a PAGE, and otherwise returns the (possibly `null`) result of
`createNodeFromSerialized`; a `null` root is only logged, the function
still returns normally. -/
def applyPendingTransfer (env : Env) (nodeData : SNode) (targetPageId : String)
    (rootChildren : List PageD) : Except String (Option FNode) :=
  match rootChildren.find? (fun p => p.id == targetPageId) with
  | none => .error ("Target page not found: " ++ targetPageId)
  | some pg =>
    if pg.type == "PAGE" then .ok (createNodeFromSerialized env nodeData)
    else .error ("Target page not found: " ++ targetPageId)

/-- Decoded payload of a relay message: the fields of the JSON envelope the
consumer actually reads (`nodeData`, `targetPageId`) plus the provenance
and `timestamp` (the envelope's createdAt) fields. -/
structure TransferBody where
  nodeData : SNode
  sourceName : String
  sourceFile : String
  targetPageId : String
  timestamp : Int

/-- Abstract content of one feed comment: `other` has no transfer marker;
`transfer` starts with the reserved marker and its JSON decodes to `body`;
`badTransfer` starts with the marker but `JSON.parse` throws on it. -/
inductive FeedMessage where
  | other (s : String)
  | transfer (body : TransferBody)
  | badTransfer

/-- Whether the message text starts with the reserved
`[FIGMA_DESIGN_TRANSFER]` marker (line 895). -/
def hasMarker : FeedMessage → Bool
  | .other _ => false
  | .transfer _ => true
  | .badTransfer => true

/-- One comment of the destination file's feed. -/
structure FeedComment where
  id : String
  msg : FeedMessage

/-- Inputs of one polling cycle: the stored token and this file's key (the
cycle is a no-op when either is absent), whether the comment-list fetch
succeeds, the feed contents, the document's pages, and the host
environment for reconstruction. -/
structure PollEnv where
  token : Option String
  fileKey : Option String
  listOk : Bool
  comments : List FeedComment
  pages : List PageD
  env : Env

/-- Observable outcome of one polling cycle: which comment was claimed,
whether a root element was created, which comment ids had a DELETE call
issued, whether the catch block logged an error, and whether any failure
was surfaced to the user (it never is: every failure path only logs). -/
structure CycleResult where
  claimed : Option String
  applied : Bool
  deleted : List String
  errorLogged : Bool
  surfaced : Bool
deriving DecidableEq, Repr

/-- A cycle that did nothing past the guard it stopped at. -/
def noopCycle : CycleResult :=
  { claimed := none, applied := false, deleted := [], errorLogged := false, surfaced := false }

/-- `checkAndApplyPendingTransfers` (lines 870-937): requires a stored token
and a file key, lists the comments, filters to marker-bearing ones, takes
the last of them (`transferComments[transferComments.length - 1]`),
parses it, applies it, and then issues the DELETE for it.  A parse or
apply **throw** lands in the catch (log only, no delete); a `null` root
result does not throw, so the DELETE is still issued after it. -/
def checkAndApplyPendingTransfers (pe : PollEnv) : CycleResult :=
  match pe.token, pe.fileKey with
  | some _, some _ =>
    if !pe.listOk then noopCycle
    else
      match ((pe.comments.filter (fun c => hasMarker c.msg)).getLast?) with
      | none => noopCycle
      | some latest =>
        match latest.msg with
        | .transfer body =>
          match applyPendingTransfer pe.env body.nodeData body.targetPageId pe.pages with
          | .error _ =>
            { claimed := some latest.id, applied := false, deleted := [],
              errorLogged := true, surfaced := false }
          | .ok created =>
            { claimed := some latest.id, applied := created.isSome,
              deleted := [latest.id], errorLogged := false, surfaced := false }
        | _ =>
          { claimed := some latest.id, applied := false, deleted := [],
            errorLogged := true, surfaced := false }
  | _, _ => noopCycle

/-- Network calls `transferToOtherFile` can issue, in order: the
destination-file GET and the comment POST (the publish). -/
inductive NetCall where
  | getFile (fileKey : String)
  | postComment (fileKey : String)
deriving DecidableEq, Repr

/-- The cached `tokenScopes` record in client storage. -/
structure ScopeRec where
  hasReadAccess : Bool
  hasWriteAccess : Bool
deriving DecidableEq, Repr

/-- The transfer request message from the UI. -/
structure XferMsg where
  fileKey : String
  pageId : Option String
  newPageName : Option String
deriving DecidableEq, Repr

/-- External outcomes `transferToOtherFile` depends on: the cached scope
record, whether the destination-file GET succeeds, the destination
document's children, and whether the comment POST succeeds. -/
structure XferEnv where
  tokenScopes : Option ScopeRec
  fileFetchOk : Bool
  filePages : List PageD
  commentPostOk : Bool
deriving DecidableEq, Repr

/-- Observable outcome of `transferToOtherFile`: the network calls issued,
whether the source-side clone was created and whether it was removed
again, success, and the error message of the throw (if any). -/
structure XferResult where
  calls : List NetCall
  cloneCreated : Bool
  cloneRemoved : Bool
  ok : Bool
  errMsg : Option String
deriving DecidableEq, Repr

/-- Error text of the write-scope check (lines 481-485). -/
def authErrorMessage : String :=
  "Your token does not have file_write permission. Cross-file transfers require write access. Please generate a new token with file_write scope."

/-- `transferToOtherFile` (lines 473-629).  Order of events: scope check
(throws before anything else), clone the node, serialize, GET the
destination file, reject `newPageName`, look the target page up, POST the
envelope comment, and only then — on the success path — remove the clone
(line 596).  No catch path removes the clone. -/
def transferToOtherFile (env : XferEnv) (msg : XferMsg) : XferResult :=
  match env.tokenScopes with
  | none =>
    { calls := [], cloneCreated := false, cloneRemoved := false, ok := false,
      errMsg := some authErrorMessage }
  | some sc =>
  if !sc.hasWriteAccess then
    { calls := [], cloneCreated := false, cloneRemoved := false, ok := false,
      errMsg := some authErrorMessage }
  else if !env.fileFetchOk then
    { calls := [.getFile msg.fileKey], cloneCreated := true, cloneRemoved := false,
      ok := false,
      errMsg := some "Cannot access destination file. Please verify your token has edit access to this file." }
  else if msg.newPageName.isSome then
    { calls := [.getFile msg.fileKey], cloneCreated := true, cloneRemoved := false,
      ok := false,
      errMsg := some "Creating new pages via API is not supported. Please select an existing page." }
  else
    match msg.pageId.bind (fun pid => env.filePages.find? (fun p => p.id == pid)) with
    | none =>
      { calls := [.getFile msg.fileKey], cloneCreated := true, cloneRemoved := false,
        ok := false, errMsg := some "Target page not found in destination file." }
    | some _ =>
      if !env.commentPostOk then
        { calls := [.getFile msg.fileKey, .postComment msg.fileKey], cloneCreated := true,
          cloneRemoved := false, ok := false,
          errMsg := some "Failed to store transfer data in destination file" }
      else
        { calls := [.getFile msg.fileKey, .postComment msg.fileKey], cloneCreated := true,
          cloneRemoved := true, ok := true, errMsg := none }

/-- Observable outcome of `handleTransfer`: whether the selection-count
error was posted to the UI, which branch ran, and the network calls of the
cross-file branch. -/
structure HTResult where
  preconditionErrorPosted : Bool
  calls : List NetCall
  crossResult : Option XferResult
deriving DecidableEq, Repr

/-- `handleTransfer` (lines 348-376): posts a user-facing error and returns
when the selection does not hold exactly one element; otherwise it
dispatches on the destination file key.  No property of the selected node
itself — in particular not its kind — is inspected.  The same-file branch
issues no network call. -/
def handleTransfer (sel : List FNode) (msg : XferMsg) (env : XferEnv)
    (currentFileKey : Option String) : HTResult :=
  if sel.length ≠ 1 then
    { preconditionErrorPosted := true, calls := [], crossResult := none }
  else if currentFileKey == some msg.fileKey || msg.fileKey == "current" then
    { preconditionErrorPosted := false, calls := [], crossResult := none }
  else
    let r := transferToOtherFile env msg
    { preconditionErrorPosted := false, calls := r.calls, crossResult := some r }

mutual

/-- All source ids carried by a live element tree, in preorder. -/
def idsF : FNode → List String
  | .node a none => [a.id]
  | .node a (some cs) => a.id :: idsFList cs

/-- Preorder id collection over a list of live elements. -/
def idsFList : List FNode → List String
  | [] => []
  | c :: cs => idsF c ++ idsFList cs

end

mutual

/-- All ids carried by a wire tree, in preorder. -/
def idsS : SNode → List String
  | .node a none => [a.id]
  | .node a (some cs) => a.id :: idsSList cs

/-- Preorder id collection over a list of wire nodes. -/
def idsSList : List SNode → List String
  | [] => []
  | c :: cs => idsS c ++ idsSList cs

end

mutual

/-- Every element of this tree carries the host-assigned fresh id, i.e. no
id was taken over from a payload. -/
def allHostIds : FNode → Bool
  | .node a none => a.id == hostFreshId
  | .node a (some cs) => a.id == hostFreshId && allHostIdsList cs

/-- `allHostIds` over a list of elements. -/
def allHostIdsList : List FNode → Bool
  | [] => true
  | c :: cs => allHostIds c && allHostIdsList cs

end

/-- `allHostIds` lifted to the deserializer's `Option` result (`null`
results carry no element, hence no foreign id). -/
def allHostIdsOpt : Option FNode → Bool
  | some m => allHostIds m
  | none => true

/-- Scalar normalization for the round-trip equivalence of the claim:
identifiers and the host metadata outside the four attribute groups
(`visible`, `locked`) are erased; everything inside the groups is kept. -/
def scrubIdAttrs (a : FAttrs) : FAttrs :=
  { a with id := "", visible := true, locked := false }

mutual

/-- Tree normalization erasing identifiers and out-of-group host metadata,
keeping all four attribute groups and the child structure. -/
def scrubId : FNode → FNode
  | .node a none => .node (scrubIdAttrs a) none
  | .node a (some cs) => .node (scrubIdAttrs a) (some (scrubIdList cs))

/-- `scrubId` over a list of elements. -/
def scrubIdList : List FNode → List FNode
  | [] => []
  | c :: cs => scrubId c :: scrubIdList cs

end

/-- Scalar normalization for the amended round-trip: additionally erases
`strokeAlign` and `fontName`, the two in-group attributes the
deserializer never restores. -/
def scrubExAttrs (a : FAttrs) : FAttrs :=
  { a with
    id := ""
    visible := true
    locked := false
    paint := { a.paint with strokeAlign := none }
    text := { a.text with fontName := none } }

mutual

/-- Tree normalization for the amended round-trip contract. -/
def scrubEx : FNode → FNode
  | .node a none => .node (scrubExAttrs a) none
  | .node a (some cs) => .node (scrubExAttrs a) (some (scrubExList cs))

/-- `scrubEx` over a list of elements. -/
def scrubExList : List FNode → List FNode
  | [] => []
  | c :: cs => scrubEx c :: scrubExList cs

end

/-- Scalar well-formedness of a live host element: its kind is one the
deserializer supports, each attribute slot is populated exactly when the
kind's capability table says so, and the values that pass through JS
truthiness guards (`height`, `fontSize`, the layout enum strings) are
truthy, as they always are on a real host element. -/
def wfAttrs (a : FAttrs) : Bool :=
  supportedKind a.type &&
  a.geom.x.isSome && a.geom.y.isSome && a.geom.width.isSome && a.geom.rotation.isSome &&
  jsTruthyInt a.geom.height &&
  a.paint.opacity.isSome && a.paint.blendMode.isSome && a.paint.effects.isSome &&
  (a.paint.fills.isSome == capFills a.type) &&
  (a.paint.strokes.isSome == capFills a.type) &&
  (a.paint.strokeWeight.isSome == capFills a.type) &&
  (a.paint.strokeAlign.isSome == capFills a.type) &&
  (a.paint.cornerRadius.isSome == capCorner a.type) &&
  (a.text.characters.isSome == capText a.type) &&
  (a.text.fontName.isSome == capText a.type) &&
  (a.text.fontSize.isSome == capText a.type) &&
  (!capText a.type || jsTruthyInt a.text.fontSize) &&
  (a.layout.layoutMode.isSome == capLayout a.type) &&
  (!capLayout a.type || jsTruthyStr a.layout.layoutMode) &&
  (a.layout.primaryAxisSizingMode.isSome == capLayout a.type) &&
  (!capLayout a.type || jsTruthyStr a.layout.primaryAxisSizingMode) &&
  (a.layout.counterAxisSizingMode.isSome == capLayout a.type) &&
  (!capLayout a.type || jsTruthyStr a.layout.counterAxisSizingMode) &&
  (a.layout.paddingLeft.isSome == capLayout a.type) &&
  (a.layout.paddingRight.isSome == capLayout a.type) &&
  (a.layout.paddingTop.isSome == capLayout a.type) &&
  (a.layout.paddingBottom.isSome == capLayout a.type) &&
  (a.layout.itemSpacing.isSome == capLayout a.type)

mutual

/-- Well-formed live element tree: scalar well-formedness everywhere and a
`children` slot exactly on the container kinds. -/
def wfNode : FNode → Bool
  | .node a none => wfAttrs a && !capChildren a.type
  | .node a (some cs) => wfAttrs a && capChildren a.type && wfList cs

/-- `wfNode` over a list of elements. -/
def wfList : List FNode → Bool
  | [] => true
  | c :: cs => wfNode c && wfList cs

end

/-! Concrete inputs used by witnesses and counterexamples. -/

/-- All geometry slots absent. -/
def noGeom : GeomAttrs := ⟨none, none, none, none, none⟩

/-- All paint slots absent. -/
def noPaint : PaintAttrs := ⟨none, none, none, none, none, none, none, none⟩

/-- All text slots absent. -/
def noText : TextAttrs := ⟨none, none, none⟩

/-- All layout slots absent. -/
def noLayout : LayoutAttrs := ⟨none, none, none, none, none, none, none, none⟩

/-- A minimal wire payload of kind `t` named `nm` with no attribute slots
and no children key. -/
def sLeaf (t nm : String) : SNode :=
  .node { type := t, name := nm, id := "", visible := none, locked := none,
          geom := noGeom, paint := noPaint, text := noText, layout := noLayout } none

/-- A wire payload of kind `t` named `nm` carrying a children list. -/
def sContainer (t nm : String) (cs : List SNode) : SNode :=
  .node { type := t, name := nm, id := "", visible := none, locked := none,
          geom := noGeom, paint := noPaint, text := noText, layout := noLayout } (some cs)

/-- A realistic live RECTANGLE element whose stroke alignment is OUTSIDE;
every slot the kind exposes is populated. -/
def exRect : FNode :=
  .node
    { type := "RECTANGLE", name := "rect", id := "42:1", visible := true, locked := false,
      geom := { x := some 1, y := some 2, width := some 30, height := some 40, rotation := some 0 },
      paint := { opacity := some 1, blendMode := some "NORMAL", fills := some [7],
                 strokes := some [3], strokeWeight := some 2, strokeAlign := some "OUTSIDE",
                 effects := some [], cornerRadius := some 4 },
      text := noText, layout := noLayout } none

/-- A realistic live TEXT element. -/
def exText : FNode :=
  .node
    { type := "TEXT", name := "label", id := "42:2", visible := true, locked := false,
      geom := { x := some 5, y := some 6, width := some 50, height := some 20, rotation := some 0 },
      paint := { opacity := some 1, blendMode := some "NORMAL", fills := some [1],
                 strokes := some [], strokeWeight := some 1, strokeAlign := some "CENTER",
                 effects := some [], cornerRadius := none },
      text := { characters := some "Hi", fontSize := some 14, fontName := some "Roboto" },
      layout := noLayout } none

/-- A realistic live FRAME element containing `exRect` and `exText`. -/
def exFrame : FNode :=
  .node
    { type := "FRAME", name := "card", id := "42:0", visible := true, locked := false,
      geom := { x := some 10, y := some 20, width := some 200, height := some 120, rotation := some 0 },
      paint := { opacity := some 1, blendMode := some "PASS_THROUGH", fills := some [9],
                 strokes := some [], strokeWeight := some 1, strokeAlign := some "INSIDE",
                 effects := some [2], cornerRadius := some 8 },
      text := noText,
      layout := { layoutMode := some "VERTICAL", primaryAxisSizingMode := some "AUTO",
                  counterAxisSizingMode := some "FIXED", paddingLeft := some 4,
                  paddingRight := some 4, paddingTop := some 0, paddingBottom := some 0,
                  itemSpacing := some 12 } }
    (some [exRect, exText])

/-- Environment in which every element-creation call throws. -/
def envAllCreateFail : Env :=
  { createThrows := fun _ => true, applyThrows := fun _ => false, fontLoadFails := false }

/-- Environment in which creating the payload named `bad` throws and every
other host call succeeds. -/
def envBadChild : Env :=
  { createThrows := fun s => s.attrs.name == "bad", applyThrows := fun _ => false,
    fontLoadFails := false }

/-- Cross-file request targeting page `0:1` of file `dest`. -/
def msgDest : XferMsg := { fileKey := "dest", pageId := some "0:1", newPageName := none }

/-- Cross-file environment in which everything succeeds. -/
def xenvAllOk : XferEnv :=
  { tokenScopes := some { hasReadAccess := true, hasWriteAccess := true },
    fileFetchOk := true, filePages := [⟨"0:1", "Target", "CANVAS"⟩],
    commentPostOk := true }

/-- Cross-file environment in which the destination-file GET fails. -/
def xenvFetchFail : XferEnv :=
  { tokenScopes := some { hasReadAccess := true, hasWriteAccess := true },
    fileFetchOk := false, filePages := [], commentPostOk := true }

/-- Cross-file environment with a cached read-only scope record. -/
def xenvReadOnly : XferEnv :=
  { tokenScopes := some { hasReadAccess := true, hasWriteAccess := false },
    fileFetchOk := true, filePages := [⟨"0:1", "Target", "CANVAS"⟩],
    commentPostOk := true }

/-- A live element of the unsupported kind STAR. -/
def starNode : FNode :=
  .node { type := "STAR", name := "star", id := "9:9", visible := true, locked := false,
          geom := noGeom, paint := noPaint, text := noText, layout := noLayout } none

/-- Envelope body whose payload is a minimal FRAME, targeting page `0:1`. -/
def bodyFrame : TransferBody :=
  { nodeData := sContainer "FRAME" "root" [], sourceName := "root", sourceFile := "Src",
    targetPageId := "0:1", timestamp := 1 }

/-- Envelope body targeting the nonexistent page `0:9`. -/
def bodyNoPage : TransferBody :=
  { nodeData := sContainer "FRAME" "root" [], sourceName := "root", sourceFile := "Src",
    targetPageId := "0:9", timestamp := 1 }

/-- The destination document's only page. -/
def pagesOne : List PageD := [⟨"0:1", "Page 1", "PAGE"⟩]

/-- Polling inputs: one well-formed pending envelope whose root creation
will throw (`envAllCreateFail`). -/
def peRootFails : PollEnv :=
  { token := some "tok", fileKey := some "dest", listOk := true,
    comments := [⟨"c1", .transfer bodyFrame⟩], pages := pagesOne, env := envAllCreateFail }

/-- Polling inputs: one well-formed pending envelope whose target page does
not exist in this document. -/
def peNoPage : PollEnv :=
  { token := some "tok", fileKey := some "dest", listOk := true,
    comments := [⟨"c1", .transfer bodyNoPage⟩], pages := pagesOne, env := envOK }

/-- Envelope created later (createdAt 5) but sitting earlier in the feed. -/
def bodyNewer : TransferBody :=
  { nodeData := sContainer "FRAME" "newer" [], sourceName := "newer", sourceFile := "Src",
    targetPageId := "0:1", timestamp := 5 }

/-- Envelope created earlier (createdAt 3) but sitting last in the feed. -/
def bodyOlder : TransferBody :=
  { nodeData := sContainer "FRAME" "older" [], sourceName := "older", sourceFile := "Src",
    targetPageId := "0:1", timestamp := 3 }

/-- Feed holding two pending envelopes for this document: the newer-created
one first, the older-created one last. -/
def peTwoPending : PollEnv :=
  { token := some "tok", fileKey := some "dest", listOk := true,
    comments := [⟨"c1", .transfer bodyNewer⟩, ⟨"c2", .transfer bodyOlder⟩],
    pages := pagesOne, env := envOK }

/-! Theorems. -/

/-- C10: deserialization of a single node is total and exception-free at
its interface: for every host environment and every payload — unknown
kinds and failing children included — `createNodeFromSerialized` returns
`none` exactly when a host call of that invocation's own try block throws;
no failure of a child propagates, and no exception escapes (the result is
always a plain `Option`). -/
theorem spec_c10_deserialize_total (env : Env) (nd : SNode) :
    createNodeFromSerialized env nd = none ↔
      (env.createThrows nd || env.applyThrows nd) = true := by
  cases nd with
  | node a ch =>
    unfold createNodeFromSerialized
    split
    next h => simp [h]
    next h => simp [h]

/-- C3 (amended): `transferToOtherFile` removes the source-side clone
exactly on the success path, after the publish succeeded; on every failure
path — before or after cloning — the clone is not removed, so a failed
cross-document attempt does leave the clone in the source document. -/
theorem spec_c3_amended_clone_removed_iff_ok (env : XferEnv) (msg : XferMsg) :
    (transferToOtherFile env msg).cloneRemoved = (transferToOtherFile env msg).ok := by
  unfold transferToOtherFile
  repeat' first
    | rfl
    | split

/-- C3 counterexample: with valid write scopes but an unreachable
destination file, the transfer fails after the clone was created, and the
clone is not removed — contradicting the claim that every failure after
cloning still discards the clone. -/
theorem spec_c3_counterexample :
    (transferToOtherFile xenvFetchFail msgDest).cloneCreated = true ∧
    (transferToOtherFile xenvFetchFail msgDest).ok = false ∧
    (transferToOtherFile xenvFetchFail msgDest).cloneRemoved = false :=
  ⟨rfl, rfl, rfl⟩

/-- C9: with an absent scope record or one lacking write access,
`transferToOtherFile` throws the authorization error before issuing any
network call — in particular no comment POST (publish) ever happens. -/
theorem spec_c9_auth_fails_before_network (env : XferEnv) (msg : XferMsg)
    (h : env.tokenScopes = none ∨
      ∃ sc, env.tokenScopes = some sc ∧ sc.hasWriteAccess = false) :
    (transferToOtherFile env msg).ok = false ∧
    (transferToOtherFile env msg).calls = [] ∧
    (transferToOtherFile env msg).errMsg = some authErrorMessage := by
  rcases h with h | ⟨sc, hsc, hw⟩
  · unfold transferToOtherFile
    simp [h]
  · unfold transferToOtherFile
    simp [hsc, hw]

/-- C9 witness: a read-only-scoped credential at a concrete request. -/
theorem spec_c9_witness :
    (transferToOtherFile xenvReadOnly msgDest).ok = false ∧
    (transferToOtherFile xenvReadOnly msgDest).calls = [] ∧
    (transferToOtherFile xenvReadOnly msgDest).errMsg = some authErrorMessage :=
  spec_c9_auth_fails_before_network xenvReadOnly msgDest (Or.inr ⟨_, rfl, rfl⟩)

/-- C8 (amended): a transfer request with zero or several selected elements
posts the user-facing selection error and returns before any network call;
but the kind of a single selected element is not validated by the transfer
handler (the kind check lives only in the selection-info path), so a
single element of an unsupported kind proceeds. -/
theorem spec_c8_amended_selection_count (sel : List FNode) (msg : XferMsg)
    (env : XferEnv) (cfk : Option String) (h : sel.length ≠ 1) :
    handleTransfer sel msg env cfk =
      { preconditionErrorPosted := true, calls := [], crossResult := none } := by
  unfold handleTransfer
  simp [h]

/-- C8 witness: the empty selection at a concrete request. -/
theorem spec_c8_witness :
    handleTransfer [] msgDest xenvAllOk (some "me") =
      { preconditionErrorPosted := true, calls := [], crossResult := none } :=
  spec_c8_amended_selection_count [] msgDest xenvAllOk (some "me") (by decide)

/-- C8 counterexample: a single selected element of the unsupported kind
STAR is not rejected: no precondition error is posted and the cross-file
path issues its network calls — contradicting the claim that an
unsupported kind fails before any network call. -/
theorem spec_c8_counterexample :
    (handleTransfer [starNode] msgDest xenvAllOk (some "me")).preconditionErrorPosted = false ∧
    (handleTransfer [starNode] msgDest xenvAllOk (some "me")).calls =
      [NetCall.getFile "dest", NetCall.postComment "dest"] :=
  ⟨rfl, rfl⟩

/-- Unfolding lemma: a deserialization whose own host calls throw yields
`null`. -/
theorem createNode_none_of_throws (env : Env) (nd : SNode)
    (h : (env.createThrows nd || env.applyThrows nd) = true) :
    createNodeFromSerialized env nd = none := by
  cases nd with
  | node a ch =>
    unfold createNodeFromSerialized
    rw [if_pos h]

/-- Unfolding lemma: a deserialization whose own host calls succeed yields
the assembled element. -/
theorem createNode_eq_some (env : Env) (a : SAttrs) (ch : Option (List SNode))
    (h1 : env.createThrows (.node a ch) = false) (h2 : env.applyThrows (.node a ch) = false) :
    createNodeFromSerialized env (.node a ch) =
      some (.node (applySerialized a (createEmptyAttrs (createdType a.type)))
        (childSlots env (createdType a.type) ch)) := by
  unfold createNodeFromSerialized
  rw [h1, h2]
  simp

/-- Unfolding lemma: the child loop on the empty payload list. -/
theorem createChildrenList_nil (env : Env) : createChildrenList env [] = [] := by
  conv_lhs => unfold createChildrenList

/-- Unfolding lemma: one step of the child loop. -/
theorem createChildrenList_cons (env : Env) (c : SNode) (cs : List SNode) :
    createChildrenList env (c :: cs) =
      match createNodeFromSerialized env c with
      | some m => m :: createChildrenList env cs
      | none => createChildrenList env cs := by
  conv_lhs => unfold createChildrenList

/-- Unfolding lemma: children slot for a payload carrying a children key. -/
theorem childSlots_some (env : Env) (t : String) (cs : List SNode) :
    childSlots env t (some cs) =
      if capChildren t then some (createChildrenList env cs) else none := by
  conv_lhs => unfold childSlots

/-- Unfolding lemma: children slot for a payload without a children key. -/
theorem childSlots_none (env : Env) (t : String) :
    childSlots env t none = if capChildren t then some [] else none := by
  conv_lhs => unfold childSlots

/-- Computation lemma: in a cycle with a token, a file key, a successful
list fetch, and a marker-bearing last pending message that decodes to
`body`, the cycle outcome is decided by `applyPendingTransfer` alone: a
throw gives log-only with no delete; a normal return (even with a `null`
root) gives a delete of the claimed comment. -/
theorem checkAndApply_run (pe : PollEnv) (latest : FeedComment) (body : TransferBody)
    (ht : pe.token.isSome = true) (hk : pe.fileKey.isSome = true) (hl : pe.listOk = true)
    (hlast : (pe.comments.filter (fun c => hasMarker c.msg)).getLast? = some latest)
    (hmsg : latest.msg = .transfer body) :
    checkAndApplyPendingTransfers pe =
      match applyPendingTransfer pe.env body.nodeData body.targetPageId pe.pages with
      | .error _ =>
        { claimed := some latest.id, applied := false, deleted := [],
          errorLogged := true, surfaced := false }
      | .ok created =>
        { claimed := some latest.id, applied := created.isSome,
          deleted := [latest.id], errorLogged := false, surfaced := false } := by
  cases pe with
  | mk tok fk lo cms pgs env =>
    rcases tok with _ | t
    · simp at ht
    rcases fk with _ | k
    · simp at hk
    simp only at hl hlast
    subst hl
    simp only [checkAndApplyPendingTransfers, Bool.not_true, Bool.false_eq_true, if_false,
      hlast, hmsg]

/-- C2 (amended): a polling cycle whose reconstruction throws (the target
page is missing, or the claimed message fails to decode) leaves the
message in the feed — no delete call — and only logs the failure; but a
cycle in which the root element merely cannot be created (a `null` result
of `createNodeFromSerialized`) still issues the delete for the claimed
message; in neither case is the failure surfaced to the user. -/
theorem spec_c2_amended (pe : PollEnv) (latest : FeedComment) (body : TransferBody)
    (ht : pe.token.isSome = true) (hk : pe.fileKey.isSome = true) (hl : pe.listOk = true)
    (hlast : (pe.comments.filter (fun c => hasMarker c.msg)).getLast? = some latest)
    (hmsg : latest.msg = .transfer body) :
    (checkAndApplyPendingTransfers pe).surfaced = false ∧
    (∀ e, applyPendingTransfer pe.env body.nodeData body.targetPageId pe.pages = .error e →
      (checkAndApplyPendingTransfers pe).deleted = [] ∧
      (checkAndApplyPendingTransfers pe).errorLogged = true) ∧
    (applyPendingTransfer pe.env body.nodeData body.targetPageId pe.pages = .ok none →
      (checkAndApplyPendingTransfers pe).deleted = [latest.id] ∧
      (checkAndApplyPendingTransfers pe).applied = false) := by
  rw [checkAndApply_run pe latest body ht hk hl hlast hmsg]
  rcases happ : applyPendingTransfer pe.env body.nodeData body.targetPageId pe.pages with e | created
  · refine ⟨rfl, ?_, ?_⟩
    · intro e2 _
      exact ⟨rfl, rfl⟩
    · intro hok
      exact Except.noConfusion hok
  · refine ⟨rfl, ?_, ?_⟩
    · intro e2 herr
      exact Except.noConfusion herr
    · intro hok
      cases hok
      exact ⟨rfl, rfl⟩

/-- C2 witness: a cycle whose envelope targets a missing page at concrete
inputs — the message is retained and the failure only logged. -/
theorem spec_c2_witness :
    (checkAndApplyPendingTransfers peNoPage).deleted = [] ∧
    (checkAndApplyPendingTransfers peNoPage).errorLogged = true :=
  (spec_c2_amended peNoPage ⟨"c1", .transfer bodyNoPage⟩ bodyNoPage rfl rfl rfl rfl
    rfl).2.1 ("Target page not found: " ++ "0:9") rfl

/-- C2 counterexample: a cycle in which the root element cannot be created
(`createNodeFromSerialized` returns `null`) still issues the DELETE for
the claimed message, so the message is *not* left in the feed for retry —
contradicting the claim. -/
theorem spec_c2_counterexample :
    createNodeFromSerialized envAllCreateFail bodyFrame.nodeData = none ∧
    (checkAndApplyPendingTransfers peRootFails).applied = false ∧
    (checkAndApplyPendingTransfers peRootFails).deleted = ["c1"] :=
  ⟨rfl, rfl, rfl⟩

/-- C5 (amended): the claim step selects the *last* marker-bearing message
in feed order — regardless of the envelopes' createdAt timestamps — and
the cycle processes (and possibly deletes) only that single message. -/
theorem spec_c5_amended (pe : PollEnv) (latest : FeedComment)
    (ht : pe.token.isSome = true) (hk : pe.fileKey.isSome = true) (hl : pe.listOk = true)
    (hlast : (pe.comments.filter (fun c => hasMarker c.msg)).getLast? = some latest) :
    (checkAndApplyPendingTransfers pe).claimed = some latest.id ∧
    ((checkAndApplyPendingTransfers pe).deleted = [] ∨
      (checkAndApplyPendingTransfers pe).deleted = [latest.id]) := by
  cases pe with
  | mk tok fk lo cms pgs env =>
    rcases tok with _ | t
    · simp at ht
    rcases fk with _ | k
    · simp at hk
    simp only at hl hlast
    subst hl
    simp only [checkAndApplyPendingTransfers, Bool.not_true, Bool.false_eq_true, if_false, hlast]
    rcases latest with ⟨lid, lmsg⟩
    rcases lmsg with s | bd | _
    · exact ⟨rfl, Or.inl rfl⟩
    · dsimp only
      rcases happ : applyPendingTransfer env bd.nodeData bd.targetPageId pgs with e | created
      · exact ⟨rfl, Or.inl rfl⟩
      · exact ⟨rfl, Or.inr rfl⟩
    · exact ⟨rfl, Or.inl rfl⟩

/-- C5 witness: a cycle with two pending envelopes at concrete inputs
claims the feed-last one and deletes at most it. -/
theorem spec_c5_witness :
    (checkAndApplyPendingTransfers peTwoPending).claimed = some "c2" ∧
    ((checkAndApplyPendingTransfers peTwoPending).deleted = [] ∨
      (checkAndApplyPendingTransfers peTwoPending).deleted = ["c2"]) :=
  spec_c5_amended peTwoPending ⟨"c2", .transfer bodyOlder⟩ rfl rfl rfl rfl

/-- C5 counterexample: with two pending envelopes for the same destination,
the feed-first one created later (createdAt 5) and the feed-last one
created earlier (createdAt 3), the cycle claims the feed-last, *older*
envelope — contradicting the claim that the one with the later createdAt
is selected. -/
theorem spec_c5_counterexample :
    peTwoPending.comments = [⟨"c1", .transfer bodyNewer⟩, ⟨"c2", .transfer bodyOlder⟩] ∧
    bodyNewer.timestamp = 5 ∧ bodyOlder.timestamp = 3 ∧
    bodyNewer.targetPageId = bodyOlder.targetPageId ∧
    (checkAndApplyPendingTransfers peTwoPending).claimed = some "c2" :=
  ⟨rfl, rfl, rfl, rfl, rfl⟩

/-- C6: a TEXT payload whose referenced font fails to load is still
deserialized: the font-load failure is caught and only logged, the text
element is created carrying the destination's default font (the payload
font reference is never assigned), its remaining attributes are applied
under their usual guards, and the node — hence the transfer — succeeds. -/
theorem spec_c6_font_failure_nonfatal (env : Env) (ta : SAttrs)
    (htype : ta.type = "TEXT")
    (h1 : env.createThrows (.node ta none) = false)
    (h2 : env.applyThrows (.node ta none) = false)
    (hfont : env.fontLoadFails = true) :
    ∃ m, createNodeFromSerialized env (.node ta none) = some m ∧
      m.attrs.type = "TEXT" ∧
      m.attrs.text.fontName = some defaultFont ∧
      m.attrs.text.characters =
        (if jsTruthyStr ta.text.characters then ta.text.characters else some "") ∧
      m.attrs.text.fontSize =
        (if jsTruthyInt ta.text.fontSize then ta.text.fontSize else some 12) ∧
      m.attrs.paint.fills = (if ta.paint.fills.isSome then ta.paint.fills else some []) ∧
      m.attrs.geom.x = (if ta.geom.x.isSome then ta.geom.x else some 0) ∧
      m.childrenOf = none := by
  rw [createNode_eq_some env ta none h1 h2]
  refine ⟨_, rfl, ?_, ?_, ?_, ?_, ?_, ?_, ?_⟩ <;>
    simp [htype, FNode.attrs, FNode.childrenOf, childSlots_none, applySerialized, applyGeom,
      applyPaint, applyText, applyLayout, applyProp, createdType, createEmptyAttrs,
      supportedKind, capFills, capCorner, capText, capLayout, capChildren, defaultGeom,
      defaultPaint, defaultText, defaultLayout, jsTruthyStr, jsTruthyInt]

/-- C6 witness: a concrete TEXT payload under a failing font load. -/
theorem spec_c6_witness :
    ∃ m, createNodeFromSerialized
        { createThrows := fun _ => false, applyThrows := fun _ => false, fontLoadFails := true }
        (sLeaf "TEXT" "label") = some m ∧
      m.attrs.type = "TEXT" ∧
      m.attrs.text.fontName = some defaultFont ∧
      m.attrs.text.characters =
        (if jsTruthyStr (sLeaf "TEXT" "label").attrs.text.characters
         then (sLeaf "TEXT" "label").attrs.text.characters else some "") ∧
      m.attrs.text.fontSize =
        (if jsTruthyInt (sLeaf "TEXT" "label").attrs.text.fontSize
         then (sLeaf "TEXT" "label").attrs.text.fontSize else some 12) ∧
      m.attrs.paint.fills =
        (if (sLeaf "TEXT" "label").attrs.paint.fills.isSome
         then (sLeaf "TEXT" "label").attrs.paint.fills else some []) ∧
      m.attrs.geom.x =
        (if (sLeaf "TEXT" "label").attrs.geom.x.isSome
         then (sLeaf "TEXT" "label").attrs.geom.x else some 0) ∧
      m.childrenOf = none :=
  spec_c6_font_failure_nonfatal _ _ rfl rfl rfl rfl

/-- C7: children are rebuilt depth-first in payload order, each successful
child is appended to the new parent, and a child whose creation throws is
skipped without aborting its siblings or the parent: a root FRAME with
three children of which the middle one throws yields a frame holding
exactly the first and third child elements in order, and the transfer is
reported as completed for the root (`applyPendingTransfer` returns the
created root). -/
theorem spec_c7_failed_child_skipped (env : Env) (ra : SAttrs) (a b c : SNode)
    (pid : String) (pages : List PageD) (pg : PageD)
    (hframe : ra.type = "FRAME")
    (hr1 : env.createThrows (.node ra (some [a, b, c])) = false)
    (hr2 : env.applyThrows (.node ra (some [a, b, c])) = false)
    (ha1 : env.createThrows a = false) (ha2 : env.applyThrows a = false)
    (hb : env.createThrows b = true)
    (hc1 : env.createThrows c = false) (hc2 : env.applyThrows c = false)
    (hfind : pages.find? (fun p => p.id == pid) = some pg) (hpg : pg.type = "PAGE") :
    ∃ m na nc,
      createNodeFromSerialized env a = some na ∧
      createNodeFromSerialized env c = some nc ∧
      createNodeFromSerialized env (.node ra (some [a, b, c])) = some m ∧
      m.childrenOf = some [na, nc] ∧
      applyPendingTransfer env (.node ra (some [a, b, c])) pid pages = .ok (some m) := by
  rcases a with ⟨aa, ach⟩
  rcases c with ⟨ca, cch⟩
  have hna := createNode_eq_some env aa ach ha1 ha2
  have hnc := createNode_eq_some env ca cch hc1 hc2
  have hnb : createNodeFromSerialized env b = none :=
    createNode_none_of_throws env b (by rw [hb]; rfl)
  have hcap : capChildren (createdType ra.type) = true := by
    rw [hframe]
    rfl
  have hkids :
      createChildrenList env [.node aa ach, b, .node ca cch] =
        [.node (applySerialized aa (createEmptyAttrs (createdType aa.type)))
           (childSlots env (createdType aa.type) ach),
         .node (applySerialized ca (createEmptyAttrs (createdType ca.type)))
           (childSlots env (createdType ca.type) cch)] := by
    rw [createChildrenList_cons, hna]
    rw [createChildrenList_cons, hnb]
    rw [createChildrenList_cons, hnc, createChildrenList_nil]
  refine ⟨.node (applySerialized ra (createEmptyAttrs (createdType ra.type)))
      (childSlots env (createdType ra.type) (some [.node aa ach, b, .node ca cch])),
    _, _, hna, hnc, ?_, ?_, ?_⟩
  · exact createNode_eq_some env ra (some [.node aa ach, b, .node ca cch]) hr1 hr2
  · simp only [FNode.childrenOf, childSlots_some, hcap, if_true, hkids]
  · unfold applyPendingTransfer
    rw [hfind]
    simp only [hpg, beq_self_eq_true, if_true]
    rw [createNode_eq_some env ra (some [.node aa ach, b, .node ca cch]) hr1 hr2]

/-- Unfolding lemma: serialization of a leaf element. -/
theorem deepSerializeNode_leaf (a : FAttrs) :
    deepSerializeNode (.node a none) = .node (serAttrs a) none := by
  conv_lhs => unfold deepSerializeNode

/-- Unfolding lemma: serialization of a container element. -/
theorem deepSerializeNode_cont (a : FAttrs) (cs : List FNode) :
    deepSerializeNode (.node a (some cs)) = .node (serAttrs a) (some (serializeChildrenList cs)) := by
  conv_lhs => unfold deepSerializeNode

/-- Unfolding lemma: serializing no children. -/
theorem serializeChildrenList_nil : serializeChildrenList [] = [] := by
  conv_lhs => unfold serializeChildrenList

/-- Unfolding lemma: serializing one more child. -/
theorem serializeChildrenList_cons (c : FNode) (cs : List FNode) :
    serializeChildrenList (c :: cs) = deepSerializeNode c :: serializeChildrenList cs := by
  conv_lhs => unfold serializeChildrenList

/-- Unfolding lemma: ids of a live leaf. -/
theorem idsF_leaf (a : FAttrs) : idsF (.node a none) = [a.id] := by
  conv_lhs => unfold idsF

/-- Unfolding lemma: ids of a live container. -/
theorem idsF_cont (a : FAttrs) (cs : List FNode) :
    idsF (.node a (some cs)) = a.id :: idsFList cs := by
  conv_lhs => unfold idsF

/-- Unfolding lemma: ids of no live elements. -/
theorem idsFList_nil : idsFList [] = [] := by
  conv_lhs => unfold idsFList

/-- Unfolding lemma: ids of one more live element. -/
theorem idsFList_cons (c : FNode) (cs : List FNode) :
    idsFList (c :: cs) = idsF c ++ idsFList cs := by
  conv_lhs => unfold idsFList

/-- Unfolding lemma: ids of a wire leaf. -/
theorem idsS_leaf (a : SAttrs) : idsS (.node a none) = [a.id] := by
  conv_lhs => unfold idsS

/-- Unfolding lemma: ids of a wire container. -/
theorem idsS_cont (a : SAttrs) (cs : List SNode) :
    idsS (.node a (some cs)) = a.id :: idsSList cs := by
  conv_lhs => unfold idsS

/-- Unfolding lemma: ids of no wire nodes. -/
theorem idsSList_nil : idsSList [] = [] := by
  conv_lhs => unfold idsSList

/-- Unfolding lemma: ids of one more wire node. -/
theorem idsSList_cons (c : SNode) (cs : List SNode) :
    idsSList (c :: cs) = idsS c ++ idsSList cs := by
  conv_lhs => unfold idsSList

/-- Unfolding lemma: host-id check of a leaf element. -/
theorem allHostIds_leaf (a : FAttrs) : allHostIds (.node a none) = (a.id == hostFreshId) := by
  conv_lhs => unfold allHostIds

/-- Unfolding lemma: host-id check of a container element. -/
theorem allHostIds_cont (a : FAttrs) (cs : List FNode) :
    allHostIds (.node a (some cs)) = ((a.id == hostFreshId) && allHostIdsList cs) := by
  conv_lhs => unfold allHostIds

/-- Unfolding lemma: host-id check of no elements. -/
theorem allHostIdsList_nil : allHostIdsList [] = true := by
  conv_lhs => unfold allHostIdsList

/-- Unfolding lemma: host-id check of one more element. -/
theorem allHostIdsList_cons (c : FNode) (cs : List FNode) :
    allHostIdsList (c :: cs) = (allHostIds c && allHostIdsList cs) := by
  conv_lhs => unfold allHostIdsList

/-- The property-application phase never writes the id slot. -/
theorem applySerialized_keeps_id (s : SAttrs) (f : FAttrs) :
    (applySerialized s f).id = f.id := rfl

/-- A freshly created element carries the host-assigned id. -/
theorem createEmptyAttrs_id (t : String) : (createEmptyAttrs t).id = hostFreshId := rfl

mutual

/-- Serialization carries exactly the source tree's ids, in order. -/
theorem ids_serialize_eq : ∀ n : FNode, idsS (deepSerializeNode n) = idsF n
  | .node a none => by
    rw [deepSerializeNode_leaf, idsS_leaf, idsF_leaf]
    rfl
  | .node a (some cs) => by
    rw [deepSerializeNode_cont, idsS_cont, idsF_cont, ids_serialize_list cs]
    rfl

/-- List version of `ids_serialize_eq`. -/
theorem ids_serialize_list : ∀ cs : List FNode,
    idsSList (serializeChildrenList cs) = idsFList cs
  | [] => by
    rw [serializeChildrenList_nil, idsSList_nil, idsFList_nil]
  | c :: cs => by
    rw [serializeChildrenList_cons, idsSList_cons, ids_serialize_eq c, ids_serialize_list cs,
      idsFList_cons]

end

mutual

/-- Every element the deserializer creates carries the host-assigned id;
no id of the wire payload is ever applied. -/
theorem create_allHostIds : ∀ (env : Env) (nd : SNode),
    allHostIdsOpt (createNodeFromSerialized env nd) = true
  | env, .node a ch => by
    cases hx : env.createThrows (.node a ch) with
    | true =>
      rw [createNode_none_of_throws env _ (by rw [hx]; rfl)]
      rfl
    | false =>
      cases hy : env.applyThrows (.node a ch) with
      | true =>
        rw [createNode_none_of_throws env _ (by rw [hx, hy]; rfl)]
        rfl
      | false =>
        rw [createNode_eq_some env a ch hx hy]
        show allHostIds _ = true
        cases ch with
        | none =>
          rw [childSlots_none]
          cases hcap : capChildren (createdType a.type) with
          | false =>
            rw [if_neg (by simp [hcap]), allHostIds_leaf, applySerialized_keeps_id,
              createEmptyAttrs_id]
            simp
          | true =>
            rw [if_pos rfl, allHostIds_cont, applySerialized_keeps_id, createEmptyAttrs_id,
              allHostIdsList_nil]
            simp
        | some cs =>
          rw [childSlots_some]
          cases hcap : capChildren (createdType a.type) with
          | false =>
            rw [if_neg (by simp [hcap]), allHostIds_leaf, applySerialized_keeps_id,
              createEmptyAttrs_id]
            simp
          | true =>
            rw [if_pos rfl, allHostIds_cont, applySerialized_keeps_id, createEmptyAttrs_id,
              create_allHostIds_list env cs]
            simp

/-- List version of `create_allHostIds` for the child loop. -/
theorem create_allHostIds_list : ∀ (env : Env) (cs : List SNode),
    allHostIdsList (createChildrenList env cs) = true
  | env, [] => by
    rw [createChildrenList_nil, allHostIdsList_nil]
  | env, c :: cs => by
    rw [createChildrenList_cons]
    have hm := create_allHostIds env c
    rcases hc : createNodeFromSerialized env c with _ | m
    · exact create_allHostIds_list env cs
    · rw [hc] at hm
      rw [allHostIdsList_cons, create_allHostIds_list env cs]
      simpa [allHostIdsOpt] using hm

end

/-- C4 (amended): the wire representation carries exactly the source
tree's identifiers — `deepSerializeNode` copies `id` at every node — but
they are inert: reconstruction never reads them, so every element the
deserializer creates carries a host-assigned fresh identity. -/
theorem spec_c4_amended_ids_carried_but_inert (n : FNode) (env : Env) (s : SNode) :
    idsS (deepSerializeNode n) = idsF n ∧
    allHostIdsOpt (createNodeFromSerialized env s) = true :=
  ⟨ids_serialize_eq n, create_allHostIds env s⟩

/-- C4 counterexample: serializing a concrete rectangle with source id
`42:1` produces a wire node whose `id` field is that same source
identifier — contradicting the claim that no source-side identifier
appears in the serialized output. -/
theorem spec_c4_counterexample :
    exRect.attrs.id = "42:1" ∧ (deepSerializeNode exRect).attrs.id = "42:1" :=
  ⟨rfl, rfl⟩

/-- An option whose `isSome` is false is `none`. -/
theorem opt_eq_none {α : Type} {o : Option α} (h : o.isSome = false) : o = none := by
  cases o
  · rfl
  · simp at h

/-- A guarded write whose payload slot is populated takes the payload. -/
theorem applyProp_of_isSome {α : Type} (d : α) (v : Option α) (h : v.isSome = true) :
    applyProp (some d) v = v := by
  simp [applyProp, h]

/-- The `height || 100` fallback is the identity on a truthy height. -/
theorem jsOrInt_truthy (o : Option Int) (d : Int) (h : jsTruthyInt o = true) :
    some (jsOrInt o d) = o := by
  rcases o with _ | v
  · simp [jsTruthyInt] at h
  · simp only [jsTruthyInt, decide_eq_true_eq] at h
    simp [jsOrInt, h]

/-- The characters guard restores the payload characters whether or not
they are empty (the empty case coincides with the created default). -/
theorem charFallback (tc : Option String) (h : tc.isSome = true) :
    (if jsTruthyStr tc then tc else some "") = tc := by
  rcases tc with _ | s
  · simp at h
  · by_cases hs : s = "" <;> simp [jsTruthyStr, hs]

/-- Unfolding lemma: normalization of a leaf element. -/
theorem scrubEx_leaf (a : FAttrs) : scrubEx (.node a none) = .node (scrubExAttrs a) none := by
  conv_lhs => unfold scrubEx

/-- Unfolding lemma: normalization of a container element. -/
theorem scrubEx_cont (a : FAttrs) (cs : List FNode) :
    scrubEx (.node a (some cs)) = .node (scrubExAttrs a) (some (scrubExList cs)) := by
  conv_lhs => unfold scrubEx

/-- Unfolding lemma: normalization of no elements. -/
theorem scrubExList_nil : scrubExList [] = [] := by
  conv_lhs => unfold scrubExList

/-- Unfolding lemma: normalization of one more element. -/
theorem scrubExList_cons (c : FNode) (cs : List FNode) :
    scrubExList (c :: cs) = scrubEx c :: scrubExList cs := by
  conv_lhs => unfold scrubExList

/-- Unfolding lemma: well-formedness of a leaf element. -/
theorem wfNode_leaf (a : FAttrs) :
    wfNode (.node a none) = (wfAttrs a && !capChildren a.type) := rfl

/-- Unfolding lemma: well-formedness of a container element. -/
theorem wfNode_cont (a : FAttrs) (cs : List FNode) :
    wfNode (.node a (some cs)) = (wfAttrs a && capChildren a.type && wfList cs) := rfl

/-- Unfolding lemma: well-formedness of no elements. -/
theorem wfList_nil : wfList [] = true := by
  conv_lhs => unfold wfList

/-- Unfolding lemma: well-formedness of one more element. -/
theorem wfList_cons (c : FNode) (cs : List FNode) :
    wfList (c :: cs) = (wfNode c && wfList cs) := by
  conv_lhs => unfold wfList

/-- A well-formed element has a supported kind. -/
theorem wfAttrs_supported (a : FAttrs) (h : wfAttrs a = true) :
    supportedKind a.type = true := by
  simp only [wfAttrs, Bool.and_eq_true, and_assoc] at h
  exact h.1

/-- The deserializer recreates a supported kind as itself. -/
theorem createdType_of_supported (t : String) (h : supportedKind t = true) :
    createdType t = t := by
  unfold createdType
  rw [if_pos h]

/-- Core scalar round-trip: applying the serialized attributes of a
well-formed element to a freshly created element of the same kind restores
every attribute-group slot except `strokeAlign` and `fontName` (never
applied) and the out-of-group metadata (`id`, `visible`, `locked`). -/
theorem applySerialized_round (a : FAttrs) (h : wfAttrs a = true) :
    scrubExAttrs (applySerialized (serAttrs a) (createEmptyAttrs a.type)) = scrubExAttrs a := by
  obtain ⟨t, nm, idv, vis, lock, ⟨gx, gy, gw, gh, gr⟩, ⟨po, pb, pf, ps, pw, pa, pef, pc⟩,
    ⟨tc, tsz, tn⟩, ⟨lm, lpm, lcm, l1, l2, l3, l4, li⟩⟩ := a
  simp only [wfAttrs, Bool.and_eq_true, and_assoc, beq_iff_eq] at h
  obtain ⟨hsup, hgx, hgy, hgw, hgr, hgh, hpo, hpb, hpef, hpf, hps, hpw, hpa, hpc, htc, htn,
    htsz, hfsz, hlm, hlmt, hpm, hpmt, hcm, hcmt, hl1, hl2, hl3, hl4, hli⟩ := h
  simp only [supportedKind, Bool.or_eq_true, beq_iff_eq, or_assoc] at hsup
  rcases hsup with rfl | rfl | rfl | rfl | rfl | rfl
  · -- FRAME: fills, corner, layout present; text absent
    have hpf2 : pf.isSome = true := hpf.trans rfl
    have hps2 : ps.isSome = true := hps.trans rfl
    have hpw2 : pw.isSome = true := hpw.trans rfl
    have hpc2 : pc.isSome = true := hpc.trans rfl
    have hlm2 : lm.isSome = true := hlm.trans rfl
    have hpm2 : lpm.isSome = true := hpm.trans rfl
    have hcm2 : lcm.isSome = true := hcm.trans rfl
    have hl12 : l1.isSome = true := hl1.trans rfl
    have hl22 : l2.isSome = true := hl2.trans rfl
    have hl32 : l3.isSome = true := hl3.trans rfl
    have hl42 : l4.isSome = true := hl4.trans rfl
    have hli2 : li.isSome = true := hli.trans rfl
    have hlmt2 : jsTruthyStr lm = true := by
      rw [show (!capLayout "FRAME") = false from rfl, Bool.false_or] at hlmt
      exact hlmt
    have hpmt2 : jsTruthyStr lpm = true := by
      rw [show (!capLayout "FRAME") = false from rfl, Bool.false_or] at hpmt
      exact hpmt
    have hcmt2 : jsTruthyStr lcm = true := by
      rw [show (!capLayout "FRAME") = false from rfl, Bool.false_or] at hcmt
      exact hcmt
    rw [opt_eq_none (htc.trans rfl), opt_eq_none (htn.trans rfl), opt_eq_none (htsz.trans rfl)]
    simp [show capFills "FRAME" = true from rfl, show capCorner "FRAME" = true from rfl,
      show capText "FRAME" = false from rfl, show capLayout "FRAME" = true from rfl,
      scrubExAttrs, applySerialized, applyGeom, applyPaint, applyText, applyLayout,
      applyProp, serAttrs, createEmptyAttrs, defaultGeom, defaultPaint, defaultText,
      defaultLayout, hgx, hgy, hgw, hgr, hpo, hpb, hpef, hpf2, hps2, hpw2, hpc2, hlm2,
      hpm2, hcm2, hl12, hl22, hl32, hl42, hli2, hlmt2, hpmt2, hcmt2,
      jsOrInt_truthy gh 100 hgh]
  · -- RECTANGLE: fills, corner present; text, layout absent
    have hpf2 : pf.isSome = true := hpf.trans rfl
    have hps2 : ps.isSome = true := hps.trans rfl
    have hpw2 : pw.isSome = true := hpw.trans rfl
    have hpc2 : pc.isSome = true := hpc.trans rfl
    rw [opt_eq_none (htc.trans rfl), opt_eq_none (htn.trans rfl), opt_eq_none (htsz.trans rfl),
      opt_eq_none (hlm.trans rfl), opt_eq_none (hpm.trans rfl), opt_eq_none (hcm.trans rfl),
      opt_eq_none (hl1.trans rfl), opt_eq_none (hl2.trans rfl), opt_eq_none (hl3.trans rfl),
      opt_eq_none (hl4.trans rfl), opt_eq_none (hli.trans rfl)]
    simp [show capFills "RECTANGLE" = true from rfl, show capCorner "RECTANGLE" = true from rfl,
      show capText "RECTANGLE" = false from rfl, show capLayout "RECTANGLE" = false from rfl,
      scrubExAttrs, applySerialized, applyGeom, applyPaint, applyText, applyLayout,
      applyProp, serAttrs, createEmptyAttrs, defaultGeom, defaultPaint, defaultText,
      defaultLayout, hgx, hgy, hgw, hgr, hpo, hpb, hpef, hpf2, hps2, hpw2, hpc2,
      jsOrInt_truthy gh 100 hgh]
  · -- ELLIPSE: fills present; corner, text, layout absent
    have hpf2 : pf.isSome = true := hpf.trans rfl
    have hps2 : ps.isSome = true := hps.trans rfl
    have hpw2 : pw.isSome = true := hpw.trans rfl
    rw [opt_eq_none (hpc.trans rfl), opt_eq_none (htc.trans rfl), opt_eq_none (htn.trans rfl),
      opt_eq_none (htsz.trans rfl), opt_eq_none (hlm.trans rfl), opt_eq_none (hpm.trans rfl),
      opt_eq_none (hcm.trans rfl), opt_eq_none (hl1.trans rfl), opt_eq_none (hl2.trans rfl),
      opt_eq_none (hl3.trans rfl), opt_eq_none (hl4.trans rfl), opt_eq_none (hli.trans rfl)]
    simp [show capFills "ELLIPSE" = true from rfl, show capCorner "ELLIPSE" = false from rfl,
      show capText "ELLIPSE" = false from rfl, show capLayout "ELLIPSE" = false from rfl,
      scrubExAttrs, applySerialized, applyGeom, applyPaint, applyText, applyLayout,
      applyProp, serAttrs, createEmptyAttrs, defaultGeom, defaultPaint, defaultText,
      defaultLayout, hgx, hgy, hgw, hgr, hpo, hpb, hpef, hpf2, hps2, hpw2,
      jsOrInt_truthy gh 100 hgh]
  · -- TEXT: fills, text present; corner, layout absent
    have hpf2 : pf.isSome = true := hpf.trans rfl
    have hps2 : ps.isSome = true := hps.trans rfl
    have hpw2 : pw.isSome = true := hpw.trans rfl
    have htc2 : tc.isSome = true := htc.trans rfl
    have htsz2 : tsz.isSome = true := htsz.trans rfl
    have hfsz2 : jsTruthyInt tsz = true := by
      rw [show (!capText "TEXT") = false from rfl, Bool.false_or] at hfsz
      exact hfsz
    rw [opt_eq_none (hpc.trans rfl), opt_eq_none (hlm.trans rfl), opt_eq_none (hpm.trans rfl),
      opt_eq_none (hcm.trans rfl), opt_eq_none (hl1.trans rfl), opt_eq_none (hl2.trans rfl),
      opt_eq_none (hl3.trans rfl), opt_eq_none (hl4.trans rfl), opt_eq_none (hli.trans rfl)]
    simp [show capFills "TEXT" = true from rfl, show capCorner "TEXT" = false from rfl,
      show capText "TEXT" = true from rfl, show capLayout "TEXT" = false from rfl,
      scrubExAttrs, applySerialized, applyGeom, applyPaint, applyText, applyLayout,
      applyProp, serAttrs, createEmptyAttrs, defaultGeom, defaultPaint, defaultText,
      defaultLayout, hgx, hgy, hgw, hgr, hpo, hpb, hpef, hpf2, hps2, hpw2, hfsz2,
      charFallback tc htc2, jsOrInt_truthy gh 100 hgh]
  · -- GROUP: only geometry and the common visual slots
    rw [opt_eq_none (hpf.trans rfl), opt_eq_none (hps.trans rfl), opt_eq_none (hpw.trans rfl),
      opt_eq_none (hpa.trans rfl), opt_eq_none (hpc.trans rfl), opt_eq_none (htc.trans rfl),
      opt_eq_none (htn.trans rfl), opt_eq_none (htsz.trans rfl), opt_eq_none (hlm.trans rfl),
      opt_eq_none (hpm.trans rfl), opt_eq_none (hcm.trans rfl), opt_eq_none (hl1.trans rfl),
      opt_eq_none (hl2.trans rfl), opt_eq_none (hl3.trans rfl), opt_eq_none (hl4.trans rfl),
      opt_eq_none (hli.trans rfl)]
    simp [show capFills "GROUP" = false from rfl, show capCorner "GROUP" = false from rfl,
      show capText "GROUP" = false from rfl, show capLayout "GROUP" = false from rfl,
      scrubExAttrs, applySerialized, applyGeom, applyPaint, applyText, applyLayout,
      applyProp, serAttrs, createEmptyAttrs, defaultGeom, defaultPaint, defaultText,
      defaultLayout, hgx, hgy, hgw, hgr, hpo, hpb, hpef, jsOrInt_truthy gh 100 hgh]
  · -- COMPONENT: fills, corner, layout present; text absent
    have hpf2 : pf.isSome = true := hpf.trans rfl
    have hps2 : ps.isSome = true := hps.trans rfl
    have hpw2 : pw.isSome = true := hpw.trans rfl
    have hpc2 : pc.isSome = true := hpc.trans rfl
    have hlm2 : lm.isSome = true := hlm.trans rfl
    have hpm2 : lpm.isSome = true := hpm.trans rfl
    have hcm2 : lcm.isSome = true := hcm.trans rfl
    have hl12 : l1.isSome = true := hl1.trans rfl
    have hl22 : l2.isSome = true := hl2.trans rfl
    have hl32 : l3.isSome = true := hl3.trans rfl
    have hl42 : l4.isSome = true := hl4.trans rfl
    have hli2 : li.isSome = true := hli.trans rfl
    have hlmt2 : jsTruthyStr lm = true := by
      rw [show (!capLayout "COMPONENT") = false from rfl, Bool.false_or] at hlmt
      exact hlmt
    have hpmt2 : jsTruthyStr lpm = true := by
      rw [show (!capLayout "COMPONENT") = false from rfl, Bool.false_or] at hpmt
      exact hpmt
    have hcmt2 : jsTruthyStr lcm = true := by
      rw [show (!capLayout "COMPONENT") = false from rfl, Bool.false_or] at hcmt
      exact hcmt
    rw [opt_eq_none (htc.trans rfl), opt_eq_none (htn.trans rfl), opt_eq_none (htsz.trans rfl)]
    simp [show capFills "COMPONENT" = true from rfl, show capCorner "COMPONENT" = true from rfl,
      show capText "COMPONENT" = false from rfl, show capLayout "COMPONENT" = true from rfl,
      scrubExAttrs, applySerialized, applyGeom, applyPaint, applyText, applyLayout,
      applyProp, serAttrs, createEmptyAttrs, defaultGeom, defaultPaint, defaultText,
      defaultLayout, hgx, hgy, hgw, hgr, hpo, hpb, hpef, hpf2, hps2, hpw2, hpc2, hlm2,
      hpm2, hcm2, hl12, hl22, hl32, hl42, hli2, hlmt2, hpmt2, hcmt2,
      jsOrInt_truthy gh 100 hgh]

mutual

/-- Round-trip over well-formed trees: serialization followed by
deserialization (with no host failures) succeeds and restores the tree up
to the `scrubEx` normalization. -/
theorem roundtrip_node : ∀ n : FNode, wfNode n = true →
    ∃ m, createNodeFromSerialized envOK (deepSerializeNode n) = some m ∧
      scrubEx m = scrubEx n
  | .node a none, h => by
    rw [wfNode_leaf, Bool.and_eq_true] at h
    obtain ⟨hwf, hncap⟩ := h
    have hsup := wfAttrs_supported a hwf
    have hct : createdType (serAttrs a).type = a.type := createdType_of_supported a.type hsup
    have hcap : capChildren a.type = false := by
      cases hcp : capChildren a.type
      · rfl
      · rw [hcp] at hncap
        simp at hncap
    rw [deepSerializeNode_leaf, createNode_eq_some envOK (serAttrs a) none rfl rfl]
    refine ⟨_, rfl, ?_⟩
    rw [hct, childSlots_none, if_neg (by simp [hcap]), scrubEx_leaf, scrubEx_leaf,
      applySerialized_round a hwf]
  | .node a (some cs), h => by
    rw [wfNode_cont, Bool.and_eq_true, Bool.and_eq_true] at h
    obtain ⟨⟨hwf, hcap⟩, hcs⟩ := h
    have hsup := wfAttrs_supported a hwf
    have hct : createdType (serAttrs a).type = a.type := createdType_of_supported a.type hsup
    rw [deepSerializeNode_cont,
      createNode_eq_some envOK (serAttrs a) (some (serializeChildrenList cs)) rfl rfl]
    refine ⟨_, rfl, ?_⟩
    rw [hct, childSlots_some, if_pos hcap, scrubEx_cont, scrubEx_cont,
      applySerialized_round a hwf, roundtrip_list cs hcs]

/-- List version of `roundtrip_node` for the child loop. -/
theorem roundtrip_list : ∀ cs : List FNode, wfList cs = true →
    scrubExList (createChildrenList envOK (serializeChildrenList cs)) = scrubExList cs
  | [], _ => by
    rw [serializeChildrenList_nil, createChildrenList_nil]
  | c :: cs, h => by
    rw [wfList_cons, Bool.and_eq_true] at h
    obtain ⟨hc, hcs⟩ := h
    rw [serializeChildrenList_cons, createChildrenList_cons]
    obtain ⟨m, hm, hsc⟩ := roundtrip_node c hc
    rw [hm]
    show scrubExList (m :: createChildrenList envOK (serializeChildrenList cs)) = _
    rw [scrubExList_cons, scrubExList_cons, hsc, roundtrip_list cs hcs]

end

/-- C1 (amended): for every well-formed tree of supported kinds (attribute
slots populated per the kind's capabilities, heights / font sizes nonzero
and layout enum strings nonempty as on a real host element),
deserializing the serialization succeeds and reproduces the element up to
the stated equivalence — all four attribute groups, child ordering and
child count — **except** `strokeAlign` and `fontName`, which the
deserializer never restores (the created element keeps the destination
defaults for them); identifiers and out-of-group metadata (`visible`,
`locked`) are excluded as in the original claim. -/
theorem spec_c1_amended_roundtrip (n : FNode) (h : wfNode n = true) :
    ∃ m, createNodeFromSerialized envOK (deepSerializeNode n) = some m ∧
      scrubEx m = scrubEx n :=
  roundtrip_node n h

/-- C1 witness: the concrete frame `exFrame` (a FRAME holding a RECTANGLE
and a TEXT) round-trips up to the amended equivalence. -/
theorem spec_c1_witness :
    wfNode exFrame = true ∧
    ∃ m, createNodeFromSerialized envOK (deepSerializeNode exFrame) = some m ∧
      scrubEx m = scrubEx exFrame :=
  ⟨rfl, spec_c1_amended_roundtrip exFrame rfl⟩

/-- C1 counterexample: the concrete rectangle `exRect` carries stroke
alignment OUTSIDE; the deserialized copy keeps the created default INSIDE
because `createNodeFromSerialized` never applies `strokeAlign`, so the
round-trip does not preserve the paint group even after excluding
identifiers and host metadata — the claim as stated is false. -/
theorem spec_c1_counterexample :
    (createNodeFromSerialized envOK (deepSerializeNode exRect)).map scrubId ≠
      some (scrubId exRect) := by
  intro hEq
  have h2 := congrArg (Option.map (fun m => (FNode.attrs m).paint.strokeAlign)) hEq
  have hL : Option.map (fun m => (FNode.attrs m).paint.strokeAlign)
      ((createNodeFromSerialized envOK (deepSerializeNode exRect)).map scrubId) =
      some (some "INSIDE") := rfl
  have hR : Option.map (fun m => (FNode.attrs m).paint.strokeAlign)
      (some (scrubId exRect)) = some (some "OUTSIDE") := rfl
  rw [hL, hR] at h2
  exact absurd h2 (by decide)

/-- C7 witness: a concrete frame payload with three children whose middle
child's creation throws. -/
theorem spec_c7_witness :
    ∃ m na nc,
      createNodeFromSerialized envBadChild (sLeaf "RECTANGLE" "ok1") = some na ∧
      createNodeFromSerialized envBadChild (sLeaf "TEXT" "ok2") = some nc ∧
      createNodeFromSerialized envBadChild
        (.node (sContainer "FRAME" "root"
          [sLeaf "RECTANGLE" "ok1", sLeaf "RECTANGLE" "bad", sLeaf "TEXT" "ok2"]).attrs
          (some [sLeaf "RECTANGLE" "ok1", sLeaf "RECTANGLE" "bad", sLeaf "TEXT" "ok2"])) =
        some m ∧
      m.childrenOf = some [na, nc] ∧
      applyPendingTransfer envBadChild
        (.node (sContainer "FRAME" "root"
          [sLeaf "RECTANGLE" "ok1", sLeaf "RECTANGLE" "bad", sLeaf "TEXT" "ok2"]).attrs
          (some [sLeaf "RECTANGLE" "ok1", sLeaf "RECTANGLE" "bad", sLeaf "TEXT" "ok2"]))
        "0:1" pagesOne = .ok (some m) :=
  spec_c7_failed_child_skipped envBadChild _ _ _ _ "0:1" pagesOne ⟨"0:1", "Page 1", "PAGE"⟩
    rfl rfl rfl rfl rfl rfl rfl rfl rfl rfl

end DesignTransfer
